import Mathlib

/-!
Shallow embedding of `scripts/validate-versions.js`, the version-consistency
validator of this repository, together with theorems settling the spec claims.

The script reads `package.json`, optionally `node_modules/react/package.json`,
and up to four fixed `dist/` artifact files, compares version strings, and
exits 0 exactly when no error was collected.  JavaScript `undefined` values
(absent JSON fields) are modelled as `Option.none`; a thrown exception
(missing or unparsable `package.json`, a `TypeError` from accessing a field of
`undefined`) is modelled as `Except.error ()`, i.e. abnormal termination.
-/

namespace ValidateVersions

/-- Outcome of parsing a JSON file that exists on disk: either the parse throws
(the file is not valid JSON, `junk`) or it yields a value of the expected
shape. -/
inductive JsonOr (α : Type) where
  | junk : JsonOr α
  | parsed : α → JsonOr α
deriving DecidableEq

/-- The `devDependencies` mapping of `package.json` as the script accesses it:
the `react` and `react-dom` entries, each possibly absent (JS `undefined`). -/
structure DevDeps where
  react : Option String
  reactDom : Option String
deriving DecidableEq

/-- `package.json` as the script accesses it: a possibly absent top-level
`version` field and a possibly absent `devDependencies` mapping. -/
structure Pkg where
  version : Option String
  devDependencies : Option DevDeps
deriving DecidableEq

/-- The file system as seen by one run of the script.
`packageJson`: `none` when the file is absent (`readFileSync` throws).
`installedReact`: `none` when `node_modules/react/package.json` does not exist
(`existsSync` is false); otherwise the parse outcome of that file, whose
`version` field may itself be absent.
`distContent`: maps a relative path to the content of that file when it
exists. -/
structure FS where
  packageJson : Option (JsonOr Pkg)
  installedReact : Option (JsonOr (Option String))
  distContent : String → Option String

/-- JS template interpolation of a possibly-`undefined` string value. -/
def showv : Option String → String
  | none => "undefined"
  | some s => s

/-- `s.replace(/^[\^~>=<]/, "")`: drop one leading range-operator character,
if present.  The regex is anchored and not global, so at most one character
is removed. -/
def stripRangeOp (s : String) : String :=
  match s.data with
  | [] => s
  | c :: cs =>
    if c = '^' ∨ c = '~' ∨ c = '>' ∨ c = '=' ∨ c = '<' then String.mk cs else s

/-- `content.split("\n")[0]`: the first line of a file, i.e. the characters
before the first newline (the whole content when it has no newline). -/
def firstLine (content : String) : String :=
  String.mk (content.data.takeWhile (fun c => c != '\n'))

/-- Try to match the regex `v(\d+\.\d+\.\d+)` at the head of the character
list, returning the capture group.  Each `\d+` is greedy; since the next
required character `.` is not a digit, greedy matching without backtracking is
exact here. -/
def matchVerAt : List Char → Option String
  | 'v' :: rest =>
    let p1 := rest.span Char.isDigit
    match p1.1, p1.2 with
    | [], _ => none
    | d1, '.' :: r2 =>
      let p2 := r2.span Char.isDigit
      match p2.1, p2.2 with
      | [], _ => none
      | d2, '.' :: r4 =>
        let p3 := r4.span Char.isDigit
        match p3.1 with
        | [] => none
        | d3 => some (String.mk (d1 ++ '.' :: d2 ++ '.' :: d3))
      | _, _ => none
    | _, _ => none
  | _ => none

/-- `line.match(/v(\d+\.\d+\.\d+)/)`: leftmost match of the version pattern
anywhere in the character list, returning the capture group. -/
def findVer : List Char → Option String
  | [] => none
  | c :: cs =>
    match matchVerAt (c :: cs) with
    | some v => some v
    | none => findVer cs

/-- The four fixed artifact paths checked by the script, in source order. -/
def distFiles : List String :=
  ["dist/react.production.min.js",
   "dist/react.development.js",
   "dist/react-dom.production.min.js",
   "dist/react-dom.development.js"]

/-- Error text pushed when `devDependencies.react` mismatches the package
version (source line 36). -/
def reactMsg (rd : String) (pv : Option String) : String :=
  "❌ devDependencies.react (" ++ rd ++ ") doesn\x27t match package version ("
    ++ showv pv ++ ")"

/-- Error text pushed when `devDependencies.react-dom` mismatches the package
version (source line 42). -/
def reactDomMsg (rdd : String) (pv : Option String) : String :=
  "❌ devDependencies.react-dom (" ++ rdd
    ++ ") doesn\x27t match package version (" ++ showv pv ++ ")"

/-- Error text pushed when the installed React version mismatches the bare
`react` dev-dependency (source line 56). -/
def instMismatchMsg (v : Option String) (rd : String) : String :=
  "❌ Installed React (" ++ showv v ++ ") doesn\x27t match devDependencies ("
    ++ rd ++ ")"

/-- Remediation hint pushed right after an installed-version mismatch. -/
def npmInstallHint : String := "   💡 Run: npm install"

/-- Error text pushed when an artifact's embedded version mismatches the
package version (source line 88). -/
def distMismatchMsg (f v : String) (pv : Option String) : String :=
  "❌ " ++ f ++ " has v" ++ v ++ ", expected v" ++ showv pv

/-- Remediation hint pushed right after an artifact-version mismatch. -/
def npmBuildHint : String := "   💡 Run: npm run build"

/-- Warning pushed for an existing artifact whose first line has no version
pattern (source line 93). -/
def couldNotMsg (f : String) : String :=
  "⚠️  Could not extract version from " ++ f

/-- Warning pushed when zero artifacts were checked (source line 101). -/
def noDistMsg : String :=
  "⚠️  No dist files found - run \"npm run build\" first"

/-- Progress line for an artifact whose version was extracted. -/
def distLogLine (f v : String) : String := "   " ++ f ++ ": v" ++ v

/-- Progress line printed when the installed descriptor exists. -/
def instLogLine (v : Option String) : String :=
  "\n📦 node_modules/react version: " ++ showv v

/-- Step 1 of the script (source lines 24-28): read and parse
`package.json`, extract the version and the two dev-dependency constraints
with their range operators stripped.  An absent or unparsable file, an absent
`devDependencies` mapping, or an absent `react` / `react-dom` entry throws
(`JSON.parse` failure or `TypeError` on `.replace`); an absent `version`
field does not throw and yields `undefined`. -/
def readManifest (fs : FS) : Except Unit (Option String × String × String) :=
  match fs.packageJson with
  | some (JsonOr.parsed p) =>
    match p.devDependencies with
    | some dd =>
      match dd.react, dd.reactDom with
      | some r, some rdm =>
        Except.ok (p.version, stripRangeOp r, stripRangeOp rdm)
      | _, _ => Except.error ()
    | none => Except.error ()
  | _ => Except.error ()

/-- Step 2, `react` half (source lines 35-39): compare the bare constraint to
the package version.  Returns the error contribution and the progress-log
contribution. -/
def reactDepCheck (rd : String) (pv : Option String) :
    List String × List String :=
  if some rd ≠ pv then ([reactMsg rd pv], [])
  else ([], ["✅ devDependencies.react matches package version"])

/-- Step 2, `react-dom` half (source lines 41-45). -/
def reactDomDepCheck (rdd : String) (pv : Option String) :
    List String × List String :=
  if some rdd ≠ pv then ([reactDomMsg rdd pv], [])
  else ([], ["✅ devDependencies.react-dom matches package version"])

/-- Step 3 (source lines 48-61): if `node_modules/react/package.json` exists,
parse it and compare its version to the bare `react` constraint (not to the
declared version); a mismatch contributes two errors.  Absence skips the check
silently; an unparsable file throws. -/
def installedCheck (rd : String) (inst : Option (JsonOr (Option String))) :
    Except Unit (List String × List String) :=
  match inst with
  | none => Except.ok ([], [])
  | some JsonOr.junk => Except.error ()
  | some (JsonOr.parsed v) =>
    if v ≠ some rd then
      Except.ok ([instMismatchMsg v rd, npmInstallHint], [instLogLine v])
    else
      Except.ok ([], [instLogLine v,
        "✅ Installed React matches devDependencies"])

/-- Accumulated result of the artifact loop: error, warning and progress-log
contributions, plus the `distFilesChecked` counter. -/
structure DistCheck where
  errs : List String
  warns : List String
  log : List String
  checked : Nat
deriving DecidableEq

/-- Step 4, one artifact (source lines 76-95): skip an absent file; for an
existing file inspect only the first line; an extracted version is logged and,
on mismatch with the package version, contributes two errors and still counts
as checked; an existing file without an extractable version contributes one
warning and does not count as checked. -/
def checkDistFile (pv : Option String) (f : String)
    (content : Option String) : DistCheck :=
  match content with
  | none => ⟨[], [], [], 0⟩
  | some c =>
    match findVer (firstLine c).data with
    | some v =>
      if some v ≠ pv then
        ⟨[distMismatchMsg f v pv, npmBuildHint], [], [distLogLine f v], 1⟩
      else
        ⟨[], [], [distLogLine f v], 1⟩
    | none => ⟨[], [couldNotMsg f], [], 0⟩

/-- The artifact loop over a list of paths, concatenating contributions in
source order and summing the checked counter. -/
def distScanList (pv : Option String) (dc : String → Option String) :
    List String → DistCheck
  | [] => ⟨[], [], [], 0⟩
  | f :: fsr =>
    let r := checkDistFile pv f (dc f)
    let rest := distScanList pv dc fsr
    ⟨r.errs ++ rest.errs, r.warns ++ rest.warns, r.log ++ rest.log,
      r.checked + rest.checked⟩

/-- Step 4 over the four fixed artifact paths (source lines 73-96). -/
def distScan (pv : Option String) (dc : String → Option String) : DistCheck :=
  distScanList pv dc distFiles

/-- Step 5 (source lines 98-102): after the loop, a full count of checked
artifacts logs a confirmation, a zero count contributes the no-artifacts
warning, and anything in between contributes nothing.  Returns the warning
contribution and the progress-log contribution. -/
def distPost (d : DistCheck) : List String × List String :=
  if d.checked = distFiles.length then
    ([], ["✅ All dist files have correct versions"])
  else if d.checked = 0 then ([noDistMsg], [])
  else ([], [])

/-- The banner and manifest-summary lines (source lines 18, 30-32). -/
def headerLog (pv : Option String) (rd rdd : String) : List String :=
  ["🔍 Validating version consistency...\n",
   "📦 package.json version: " ++ showv pv,
   "📦 devDependencies.react: " ++ rd,
   "📦 devDependencies.react-dom: " ++ rdd ++ "\n"]

/-- Everything printed during the scan, before the final report, in source
order. -/
def scanLog (pv : Option String) (rd rdd : String) (instLog : List String)
    (d : DistCheck) : List String :=
  headerLog pv rd rdd ++ (reactDepCheck rd pv).2 ++ (reactDomDepCheck rdd pv).2
    ++ instLog ++ ["\n📦 Checking built dist files..."] ++ d.log
    ++ (distPost d).2

/-- The separator printed at source line 105. -/
def sepLine : String := "\n" ++ String.mk (List.replicate 60 '=')

/-- Header of the failure report (source line 108). -/
def failHdr : String := "\n❌ VALIDATION FAILED:\n"

/-- Header of the warnings block (source line 114). -/
def warnHdr : String := "\n⚠️  WARNINGS:\n"

/-- The success line (source line 118). -/
def passLine : String := "\n✅ All version validations passed!\n"

/-- The observable result of a complete (non-throwing) run: the full stdout
transcript, the collected error and warning sequences, and the exit status. -/
structure Outcome where
  log : List String
  errors : List String
  warnings : List String
  exit : Nat
deriving DecidableEq

/-- Step 5 reporting (source lines 104-119): with any error collected, print
the failure header and every error and exit 1 (`process.exit(1)` skips the
warnings block); otherwise print the warnings block when non-empty, then the
success line, and exit 0. -/
def finalReport (scan errs warns : List String) : Outcome :=
  if errs ≠ [] then
    ⟨scan ++ [sepLine, failHdr] ++ errs, errs, warns, 1⟩
  else
    ⟨scan ++ [sepLine]
       ++ (if warns ≠ [] then warnHdr :: warns else []) ++ [passLine],
     errs, warns, 0⟩

/-- The whole script, `validateVersions()` (source lines 17-122).
`Except.error ()` models abnormal termination by an uncaught exception. -/
def validateVersions (fs : FS) : Except Unit Outcome :=
  match readManifest fs with
  | Except.error e => Except.error e
  | Except.ok (pv, rd, rdd) =>
    match installedCheck rd fs.installedReact with
    | Except.error e => Except.error e
    | Except.ok (instErrs, instLog) =>
      let d := distScan pv fs.distContent
      let errs := (reactDepCheck rd pv).1 ++ (reactDomDepCheck rdd pv).1
        ++ instErrs ++ d.errs
      let warns := d.warns ++ (distPost d).1
      Except.ok (finalReport (scanLog pv rd rdd instLog d) errs warns)

/-- Number of the four fixed artifacts that exist and whose first line
contains an extractable version: this is the value of the source's
`distFilesChecked` counter after the loop. -/
def extractedCount (dc : String → Option String) : Nat :=
  (distFiles.filter
    (fun f => ((dc f).bind (fun c => findVer (firstLine c).data)).isSome)).length

/-- Manifest states that make the script throw before any check runs: the
file is absent or unparsable, the `devDependencies` mapping is absent, or one
of the two dev-dependency entries is absent. -/
def manifestFatal (fs : FS) : Bool :=
  match fs.packageJson with
  | none => true
  | some JsonOr.junk => true
  | some (JsonOr.parsed p) =>
    match p.devDependencies with
    | none => true
    | some dd => dd.react.isNone || dd.reactDom.isNone

/-! Concrete file systems and run outcomes used as test inputs below. -/

/-- A consistent manifest, no installed copy, no artifacts. -/
def fsPass : FS :=
  ⟨some (JsonOr.parsed ⟨some ("19.2.0"), some ⟨some ("^19.2.0"), some ("^19.2.0")⟩⟩),
   none, fun _ => none⟩

/-- The same file contents as `fsPass`, written out a second time. -/
def fsPass2 : FS :=
  ⟨some (JsonOr.parsed ⟨some ("19.2.0"), some ⟨some ("^19.2.0"), some ("^19.2.0")⟩⟩),
   none, fun _ => none⟩

/-- Outcome of running on `fsPass`. -/
def outPass : Outcome :=
  ⟨["🔍 Validating version consistency...\n",
    "📦 package.json version: 19.2.0",
    "📦 devDependencies.react: 19.2.0",
    "📦 devDependencies.react-dom: 19.2.0\n",
    "✅ devDependencies.react matches package version",
    "✅ devDependencies.react-dom matches package version",
    "\n📦 Checking built dist files...",
    sepLine, warnHdr, noDistMsg, passLine],
   [], [noDistMsg], 0⟩

/-- A consistent manifest with one artifact present whose first line contains
no version pattern. -/
def fsC1 : FS :=
  ⟨some (JsonOr.parsed ⟨some ("19.2.0"), some ⟨some ("^19.2.0"), some ("^19.2.0")⟩⟩),
   none,
   fun f => if f = "dist/react.production.min.js" then some ("hello world") else none⟩

/-- Outcome of running on `fsC1`: both warnings, including the
no-artifacts-found one, even though one artifact exists. -/
def outC1 : Outcome :=
  ⟨["🔍 Validating version consistency...\n",
    "📦 package.json version: 19.2.0",
    "📦 devDependencies.react: 19.2.0",
    "📦 devDependencies.react-dom: 19.2.0\n",
    "✅ devDependencies.react matches package version",
    "✅ devDependencies.react-dom matches package version",
    "\n📦 Checking built dist files...",
    sepLine, warnHdr, couldNotMsg ("dist/react.production.min.js"), noDistMsg,
    passLine],
   [], [couldNotMsg ("dist/react.production.min.js"), noDistMsg], 0⟩

/-- Manifest whose `react` constraint mismatches the declared version; no
installed copy, no artifacts. -/
def fsMism : FS :=
  ⟨some (JsonOr.parsed ⟨some ("19.2.0"), some ⟨some ("^19.1.0"), some ("^19.2.0")⟩⟩),
   none, fun _ => none⟩

/-- Outcome of running on `fsMism`: one error, one warning, exit 1, and the
warning is not printed. -/
def outMism : Outcome :=
  ⟨["🔍 Validating version consistency...\n",
    "📦 package.json version: 19.2.0",
    "📦 devDependencies.react: 19.1.0",
    "📦 devDependencies.react-dom: 19.2.0\n",
    "✅ devDependencies.react-dom matches package version",
    "\n📦 Checking built dist files...",
    sepLine, failHdr, reactMsg ("19.1.0") (some ("19.2.0"))],
   [reactMsg ("19.1.0") (some ("19.2.0"))], [noDistMsg], 1⟩

/-- Consistent manifest with an installed React whose version mismatches the
dev-dependency constraint. -/
def fsInst : FS :=
  ⟨some (JsonOr.parsed ⟨some ("19.2.0"), some ⟨some ("^19.2.0"), some ("^19.2.0")⟩⟩),
   some (JsonOr.parsed (some ("19.1.0"))), fun _ => none⟩

/-- Outcome of running on `fsInst`: the installed mismatch error plus the
reinstall hint, exit 1. -/
def outInst : Outcome :=
  ⟨["🔍 Validating version consistency...\n",
    "📦 package.json version: 19.2.0",
    "📦 devDependencies.react: 19.2.0",
    "📦 devDependencies.react-dom: 19.2.0\n",
    "✅ devDependencies.react matches package version",
    "✅ devDependencies.react-dom matches package version",
    instLogLine (some ("19.1.0")),
    "\n📦 Checking built dist files...",
    sepLine, failHdr, instMismatchMsg (some ("19.1.0")) ("19.2.0"),
    npmInstallHint],
   [instMismatchMsg (some ("19.1.0")) ("19.2.0"), npmInstallHint],
   [noDistMsg], 1⟩

/-- An unparsable `package.json`. -/
def fsJunk : FS := ⟨some JsonOr.junk, none, fun _ => none⟩

/-- A manifest that parses but lacks the top-level `version` field, with both
dev-dependency entries present. -/
def fsNoVer : FS :=
  ⟨some (JsonOr.parsed ⟨none, some ⟨some ("1.0.0"), some ("1.0.0")⟩⟩),
   none, fun _ => none⟩

/-- Outcome of running on `fsNoVer`: the run completes, prints a report and
exits 1 (both constraints mismatch the `undefined` declared version). -/
def outNoVer : Outcome :=
  ⟨["🔍 Validating version consistency...\n",
    "📦 package.json version: undefined",
    "📦 devDependencies.react: 1.0.0",
    "📦 devDependencies.react-dom: 1.0.0\n",
    "\n📦 Checking built dist files...",
    sepLine, failHdr, reactMsg ("1.0.0") none, reactDomMsg ("1.0.0") none],
   [reactMsg ("1.0.0") none, reactDomMsg ("1.0.0") none], [noDistMsg], 1⟩

/-- Manifest whose `react` constraint carries the two-character operator
`>=`. -/
def fsTen : FS :=
  ⟨some (JsonOr.parsed ⟨some ("19.2.0"), some ⟨some (">=19.2.0"), some ("^19.2.0")⟩⟩),
   none, fun _ => none⟩

/-- Outcome of running on `fsTen`: the partially stripped constraint
`=19.2.0` mismatches and the run fails. -/
def outTen : Outcome :=
  ⟨["🔍 Validating version consistency...\n",
    "📦 package.json version: 19.2.0",
    "📦 devDependencies.react: =19.2.0",
    "📦 devDependencies.react-dom: 19.2.0\n",
    "✅ devDependencies.react-dom matches package version",
    "\n📦 Checking built dist files...",
    sepLine, failHdr, reactMsg ("=19.2.0") (some ("19.2.0"))],
   [reactMsg ("=19.2.0") (some ("19.2.0"))], [noDistMsg], 1⟩

/-! Helper lemmas about the reporting step and the run decomposition. -/

lemma finalReport_errors (s e w : List String) : (finalReport s e w).errors = e := by
  unfold finalReport
  split <;> rfl

lemma finalReport_warnings (s e w : List String) :
    (finalReport s e w).warnings = w := by
  unfold finalReport
  split <;> rfl

lemma finalReport_exit_one (s e w : List String) (h : e ≠ []) :
    (finalReport s e w).exit = 1 := by
  unfold finalReport
  split
  · rfl
  · simp_all

lemma finalReport_exit_zero (s e w : List String) (h : e = []) :
    (finalReport s e w).exit = 0 := by
  unfold finalReport
  split
  · simp_all
  · rfl

lemma finalReport_log_fail (s e w : List String) (h : e ≠ []) :
    (finalReport s e w).log = s ++ [sepLine, failHdr] ++ e := by
  unfold finalReport
  split
  · rfl
  · simp_all

lemma finalReport_log_pass (s e w : List String) (h : e = []) :
    (finalReport s e w).log =
      s ++ [sepLine] ++ (if w ≠ [] then warnHdr :: w else []) ++ [passLine] := by
  unfold finalReport
  split
  · simp_all
  · rfl

lemma validateVersions_ok (fs : FS) (pv : Option String) (rd rdd : String)
    (instErrs instLog : List String)
    (hm : readManifest fs = Except.ok (pv, rd, rdd))
    (hi : installedCheck rd fs.installedReact = Except.ok (instErrs, instLog)) :
    validateVersions fs = Except.ok (finalReport
      (scanLog pv rd rdd instLog (distScan pv fs.distContent))
      ((reactDepCheck rd pv).1 ++ (reactDomDepCheck rdd pv).1 ++ instErrs
        ++ (distScan pv fs.distContent).errs)
      ((distScan pv fs.distContent).warns
        ++ (distPost (distScan pv fs.distContent)).1)) := by
  unfold validateVersions
  rw [hm]
  dsimp only
  rw [hi]

lemma validateVersions_ok_inv (fs : FS) (o : Outcome)
    (h : validateVersions fs = Except.ok o) :
    ∃ pv rd rdd instErrs instLog,
      readManifest fs = Except.ok (pv, rd, rdd) ∧
      installedCheck rd fs.installedReact = Except.ok (instErrs, instLog) ∧
      o = finalReport (scanLog pv rd rdd instLog (distScan pv fs.distContent))
        ((reactDepCheck rd pv).1 ++ (reactDomDepCheck rdd pv).1 ++ instErrs
          ++ (distScan pv fs.distContent).errs)
        ((distScan pv fs.distContent).warns
          ++ (distPost (distScan pv fs.distContent)).1) := by
  cases hm : readManifest fs with
  | error e =>
    unfold validateVersions at h
    rw [hm] at h
    exact Except.noConfusion h
  | ok t =>
    obtain ⟨pv, rd, rdd⟩ := t
    cases hi : installedCheck rd fs.installedReact with
    | error e =>
      unfold validateVersions at h
      rw [hm] at h
      dsimp only at h
      rw [hi] at h
      exact Except.noConfusion h
    | ok t2 =>
      obtain ⟨instErrs, instLog⟩ := t2
      have hv := validateVersions_ok fs pv rd rdd instErrs instLog hm hi
      rw [hv] at h
      exact ⟨pv, rd, rdd, instErrs, instLog, rfl, hi, (Except.ok.inj h).symm⟩

lemma checkDistFile_checked (pv : Option String) (f : String) (c : Option String) :
    (checkDistFile pv f c).checked =
      if ((c.bind (fun s => findVer (firstLine s).data)).isSome) then 1 else 0 := by
  cases c with
  | none => rfl
  | some s =>
    unfold checkDistFile
    cases hv : findVer (firstLine s).data with
    | none => simp [Option.bind, hv]
    | some v =>
      dsimp only
      rw [hv]
      dsimp only
      split <;> simp [Option.bind, hv]

lemma distScanList_checked (pv : Option String) (dc : String → Option String)
    (l : List String) :
    (distScanList pv dc l).checked =
      (l.filter
        (fun f => ((dc f).bind (fun c => findVer (firstLine c).data)).isSome)).length := by
  induction l with
  | nil => rfl
  | cons f fsr ih =>
    unfold distScanList
    dsimp only
    rw [checkDistFile_checked, ih]
    by_cases hp : ((dc f).bind (fun c => findVer (firstLine c).data)).isSome = true
    · simp [List.filter_cons, hp]
      omega
    · simp [List.filter_cons, hp]

lemma distScan_checked (pv : Option String) (dc : String → Option String) :
    (distScan pv dc).checked = extractedCount dc :=
  distScanList_checked pv dc distFiles

lemma couldNot_ne_noDist (f : String) : couldNotMsg f ≠ noDistMsg := by
  intro h
  have h1 : (couldNotMsg f).data[4]? = noDistMsg.data[4]? := by rw [h]
  have h2 : (couldNotMsg f).data[4]? = some 'C' := rfl
  rw [h2] at h1
  exact absurd h1 (by decide)

lemma checkDistFile_warns (pv : Option String) (f : String) (c : Option String) :
    (checkDistFile pv f c).warns = [] ∨
      (checkDistFile pv f c).warns = [couldNotMsg f] := by
  cases c with
  | none => left; rfl
  | some s =>
    unfold checkDistFile
    dsimp only
    cases hv : findVer (firstLine s).data with
    | none =>
      right
      rfl
    | some v =>
      left
      dsimp only
      split <;> rfl

lemma noDist_not_mem_scanList (pv : Option String) (dc : String → Option String)
    (l : List String) : noDistMsg ∉ (distScanList pv dc l).warns := by
  induction l with
  | nil => simp [distScanList]
  | cons f fsr ih =>
    unfold distScanList
    dsimp only
    intro hmem
    rcases List.mem_append.1 hmem with hl | hr
    · rcases checkDistFile_warns pv f (dc f) with hw | hw
      · rw [hw] at hl
        exact absurd hl (List.not_mem_nil _)
      · rw [hw] at hl
        exact couldNot_ne_noDist f (List.mem_singleton.1 hl).symm
    · exact ih hr

lemma noDist_mem_distPost (d : DistCheck) :
    noDistMsg ∈ (distPost d).1 ↔ d.checked = 0 := by
  unfold distPost
  split
  · rename_i h
    constructor
    · intro hx
      exact absurd hx (List.not_mem_nil _)
    · intro hx
      rw [hx] at h
      exact absurd h.symm (by decide)
  · split
    · rename_i h1 h2
      simp [h2]
    · rename_i h1 h2
      simp [h2]

lemma distPost_confirm (d : DistCheck) :
    (distPost d).2 ≠ [] ↔ d.checked = distFiles.length := by
  unfold distPost
  split
  · rename_i h
    simp [h]
  · split
    · rename_i h1 h2
      simp [h1]
    · rename_i h1 h2
      simp [h1]

lemma readManifest_fatal (fs : FS) (h : manifestFatal fs = true) :
    readManifest fs = Except.error () := by
  unfold manifestFatal at h
  unfold readManifest
  cases hp : fs.packageJson with
  | none => rfl
  | some j =>
    cases j with
    | junk => rfl
    | parsed p =>
      rw [hp] at h
      dsimp only at h
      dsimp only
      cases hd : p.devDependencies with
      | none => rfl
      | some dd =>
        rw [hd] at h
        dsimp only at h
        dsimp only
        cases hre : dd.react with
        | none => rfl
        | some r =>
          cases hrdm : dd.reactDom with
          | none => rfl
          | some rr =>
            rw [hre, hrdm] at h
            simp at h

lemma validateVersions_fatal (fs : FS) (h : readManifest fs = Except.error ()) :
    validateVersions fs = Except.error () := by
  unfold validateVersions
  rw [h]

lemma finalReport_print (s e w : List String) :
    (∀ x ∈ e, x ∈ (finalReport s e w).log) ∧
    ((finalReport s e w).exit = 1 →
      (finalReport s e w).log = s ++ [sepLine, failHdr] ++ e) ∧
    ((finalReport s e w).exit = 0 → ∀ x ∈ w, x ∈ (finalReport s e w).log) := by
  by_cases he : e = []
  · refine ⟨?_, ?_, ?_⟩
    · intro x hx
      rw [he] at hx
      exact absurd hx (List.not_mem_nil _)
    · intro hx
      rw [finalReport_exit_zero s e w he] at hx
      exact absurd hx (by decide)
    · intro _ x hx
      rw [finalReport_log_pass s e w he]
      by_cases hw : w = []
      · rw [hw] at hx
        exact absurd hx (List.not_mem_nil _)
      · rw [if_pos hw]
        simp [hx]
  · refine ⟨?_, ?_, ?_⟩
    · intro x hx
      rw [finalReport_log_fail s e w he]
      exact List.mem_append.2 (Or.inr hx)
    · intro _
      exact finalReport_log_fail s e w he
    · intro hx
      rw [finalReport_exit_one s e w he] at hx
      exact absurd hx (by decide)

lemma react_mismatch_run (fs : FS) (o : Outcome) (pv : Option String)
    (rd rdd : String) (hm : readManifest fs = Except.ok (pv, rd, rdd))
    (hr : validateVersions fs = Except.ok o) (hne : some rd ≠ pv) :
    reactMsg rd pv ∈ o.errors ∧ o.exit = 1 := by
  cases hi : installedCheck rd fs.installedReact with
  | error e =>
    unfold validateVersions at hr
    rw [hm] at hr
    dsimp only at hr
    rw [hi] at hr
    exact Except.noConfusion hr
  | ok t =>
    obtain ⟨instErrs, instLog⟩ := t
    have hv := validateVersions_ok fs pv rd rdd instErrs instLog hm hi
    rw [hv] at hr
    have ho := Except.ok.inj hr
    subst ho
    have hrc : reactDepCheck rd pv = ([reactMsg rd pv], []) := by
      unfold reactDepCheck
      rw [if_pos hne]
    constructor
    · rw [finalReport_errors]
      simp [hrc]
    · apply finalReport_exit_one
      simp [hrc]

lemma reactDom_mismatch_run (fs : FS) (o : Outcome) (pv : Option String)
    (rd rdd : String) (hm : readManifest fs = Except.ok (pv, rd, rdd))
    (hr : validateVersions fs = Except.ok o) (hne : some rdd ≠ pv) :
    reactDomMsg rdd pv ∈ o.errors ∧ o.exit = 1 := by
  cases hi : installedCheck rd fs.installedReact with
  | error e =>
    unfold validateVersions at hr
    rw [hm] at hr
    dsimp only at hr
    rw [hi] at hr
    exact Except.noConfusion hr
  | ok t =>
    obtain ⟨instErrs, instLog⟩ := t
    have hv := validateVersions_ok fs pv rd rdd instErrs instLog hm hi
    rw [hv] at hr
    have ho := Except.ok.inj hr
    subst ho
    have hrc : reactDomDepCheck rdd pv = ([reactDomMsg rdd pv], []) := by
      unfold reactDomDepCheck
      rw [if_pos hne]
    constructor
    · rw [finalReport_errors]
      simp [hrc]
    · apply finalReport_exit_one
      simp [hrc]

/-! The claim theorems. -/

/-- Claim C1, counterexample: an artifact file that exists but whose first
line has no extractable version does NOT prevent the no-artifacts Warning.
On `fsC1` one artifact path exists, yet `noDistMsg` is still appended,
contradicting the claim that any existing artifact file prevents the
Warning. -/
theorem noDist_warning_despite_existing_artifact :
    fsC1.distContent ("dist/react.production.min.js") ≠ none ∧
    validateVersions fsC1 = Except.ok outC1 ∧
    noDistMsg ∈ outC1.warnings := by
  refine ⟨by decide, rfl, by decide⟩

/-- Claim C1, amended: the no-artifacts Warning is appended exactly when the
count of artifacts from which a version was successfully extracted
(`distFilesChecked`) is zero, and the positive confirmation is produced by
the post-loop step exactly when that count is four; an existing artifact
prevents the Warning only when a version could be extracted from its first
line. -/
theorem noDist_warning_iff_zero_extracted (fs : FS) (o : Outcome)
    (h : validateVersions fs = Except.ok o) :
    (noDistMsg ∈ o.warnings ↔ extractedCount fs.distContent = 0) ∧
    (∀ pv, (distPost (distScan pv fs.distContent)).2 ≠ [] ↔
      extractedCount fs.distContent = 4) := by
  constructor
  · obtain ⟨pv, rd, rdd, instErrs, instLog, hm, hi, ho⟩ :=
      validateVersions_ok_inv fs o h
    subst ho
    rw [finalReport_warnings]
    constructor
    · intro hmem
      rcases List.mem_append.1 hmem with hl | hr2
      · exact absurd hl (noDist_not_mem_scanList pv fs.distContent distFiles)
      · have hc := (noDist_mem_distPost _).1 hr2
        rw [distScan_checked] at hc
        exact hc
    · intro hc
      apply List.mem_append.2
      right
      apply (noDist_mem_distPost _).2
      rw [distScan_checked]
      exact hc
  · intro pv
    rw [distPost_confirm, distScan_checked]
    exact Iff.rfl

/-- Claim C2: a completed run exits 0 exactly when the collected Error
sequence is empty and exits 1 exactly when it is non-empty; the collected
Warnings play no role in the exit status. -/
theorem exit_status_iff_errors (fs : FS) (o : Outcome)
    (h : validateVersions fs = Except.ok o) :
    (o.exit = 0 ↔ o.errors = []) ∧ (o.exit = 1 ↔ o.errors ≠ []) := by
  obtain ⟨pv, rd, rdd, instErrs, instLog, hm, hi, ho⟩ :=
    validateVersions_ok_inv fs o h
  subst ho
  by_cases he : (reactDepCheck rd pv).1 ++ (reactDomDepCheck rdd pv).1
      ++ instErrs ++ (distScan pv fs.distContent).errs = []
  · rw [finalReport_exit_zero _ _ _ he, finalReport_errors]
    exact ⟨⟨fun _ => he, fun _ => rfl⟩,
      ⟨fun h01 => absurd h01 (by decide), fun hne => absurd he hne⟩⟩
  · rw [finalReport_exit_one _ _ _ he, finalReport_errors]
    exact ⟨⟨fun h10 => absurd h10 (by decide), fun hE => absurd hE he⟩,
      ⟨fun _ => he, fun _ => rfl⟩⟩

/-- Claim C3: a dev-dependency constraint whose bare version differs from the
declared version makes the run fail with an error naming that dependency and
showing both values; a matching constraint contributes no diagnostic. -/
theorem dep_constraint_mismatch_error (fs : FS) (o : Outcome)
    (pv : Option String) (rd rdd : String)
    (hm : readManifest fs = Except.ok (pv, rd, rdd))
    (hr : validateVersions fs = Except.ok o) :
    (some rd ≠ pv → reactMsg rd pv ∈ o.errors ∧ o.exit = 1) ∧
    (some rdd ≠ pv → reactDomMsg rdd pv ∈ o.errors ∧ o.exit = 1) ∧
    (some rd = pv → (reactDepCheck rd pv).1 = []) ∧
    (some rdd = pv → (reactDomDepCheck rdd pv).1 = []) := by
  refine ⟨fun hne => react_mismatch_run fs o pv rd rdd hm hr hne,
    fun hne => reactDom_mismatch_run fs o pv rd rdd hm hr hne,
    fun heq => ?_, fun heq => ?_⟩
  · unfold reactDepCheck
    rw [if_neg (fun hh => hh heq)]
  · unfold reactDomDepCheck
    rw [if_neg (fun hh => hh heq)]

/-- Claim C4: the installed version is compared to the bare `react`
constraint, never to the declared version (which appears nowhere in this
statement); a mismatch contributes exactly the mismatch error plus the
reinstall hint; an absent descriptor contributes nothing. -/
theorem installed_check_against_constraint (rd : String) (v : Option String) :
    installedCheck rd none = Except.ok ([], []) ∧
    (v ≠ some rd → installedCheck rd (some (JsonOr.parsed v)) =
      Except.ok ([instMismatchMsg v rd, npmInstallHint], [instLogLine v])) ∧
    (v = some rd → installedCheck rd (some (JsonOr.parsed v)) =
      Except.ok ([], [instLogLine v,
        "✅ Installed React matches devDependencies"])) ∧
    (∀ (fs : FS) (o : Outcome) (pv : Option String) (rdd : String),
      readManifest fs = Except.ok (pv, rd, rdd) →
      fs.installedReact = some (JsonOr.parsed v) →
      validateVersions fs = Except.ok o → v ≠ some rd →
      instMismatchMsg v rd ∈ o.errors ∧ npmInstallHint ∈ o.errors ∧
        o.exit = 1) := by
  refine ⟨rfl, fun hne => ?_, fun heq => ?_, ?_⟩
  · unfold installedCheck
    dsimp only
    rw [if_pos hne]
  · unfold installedCheck
    dsimp only
    rw [if_neg (fun hh => hh heq)]
  · intro fs o pv rdd hm hinst hr hne
    have hi : installedCheck rd fs.installedReact =
        Except.ok ([instMismatchMsg v rd, npmInstallHint], [instLogLine v]) := by
      rw [hinst]
      unfold installedCheck
      dsimp only
      rw [if_pos hne]
    have hv := validateVersions_ok fs pv rd rdd
      [instMismatchMsg v rd, npmInstallHint] [instLogLine v] hm hi
    rw [hv] at hr
    have ho := Except.ok.inj hr
    subst ho
    refine ⟨?_, ?_, ?_⟩
    · rw [finalReport_errors]
      simp
    · rw [finalReport_errors]
      simp
    · apply finalReport_exit_one
      simp

/-- Claim C5: for an existing artifact only the first line is inspected; a
matched version that mismatches the declared version contributes exactly the
mismatch error plus the rebuild hint and no warning; a first line without a
match contributes exactly one warning and no error. -/
theorem artifact_first_line_check (pv : Option String) (f c : String) :
    (∀ c₂, firstLine c = firstLine c₂ →
      checkDistFile pv f (some c) = checkDistFile pv f (some c₂)) ∧
    (∀ v, findVer (firstLine c).data = some v →
      (some v ≠ pv →
        (checkDistFile pv f (some c)).errs =
          [distMismatchMsg f v pv, npmBuildHint] ∧
        (checkDistFile pv f (some c)).warns = []) ∧
      (some v = pv →
        (checkDistFile pv f (some c)).errs = [] ∧
        (checkDistFile pv f (some c)).warns = [])) ∧
    (findVer (firstLine c).data = none →
      (checkDistFile pv f (some c)).errs = [] ∧
      (checkDistFile pv f (some c)).warns = [couldNotMsg f]) := by
  refine ⟨fun c₂ hfl => ?_, fun v hv => ?_, fun hz => ?_⟩
  · unfold checkDistFile
    dsimp only
    rw [hfl]
  · unfold checkDistFile
    dsimp only
    rw [hv]
    dsimp only
    constructor
    · intro hne
      rw [if_pos hne]
      exact ⟨rfl, rfl⟩
    · intro heq
      rw [if_neg (fun hh => hh heq)]
      exact ⟨rfl, rfl⟩
  · unfold checkDistFile
    dsimp only
    rw [hz]
    exact ⟨rfl, rfl⟩

/-- Claim C6, counterexample: a manifest that parses but lacks only the
`version` field does NOT terminate abnormally; the run completes, prints a
report, and exits 1. -/
theorem missing_version_field_terminates_normally :
    validateVersions fsNoVer = Except.ok outNoVer ∧
    validateVersions fsNoVer ≠ Except.error () := by
  constructor
  · rfl
  · intro h
    have h2 : Except.ok outNoVer = (Except.error () : Except Unit Outcome) := by
      rw [← h]
      rfl
    exact Except.noConfusion h2

/-- Claim C6, amended: an absent or unparsable manifest, an absent
`devDependencies` mapping, or an absent `react` / `react-dom` entry makes the
run terminate abnormally with no report; a manifest lacking only the
`version` field instead completes its run and always exits 1 (never
Success). -/
theorem manifest_fatal_and_missing_version (fs : FS) :
    (manifestFatal fs = true → validateVersions fs = Except.error ()) ∧
    (∀ p, fs.packageJson = some (JsonOr.parsed p) → p.version = none →
      ∀ o, validateVersions fs = Except.ok o → o.exit = 1) := by
  constructor
  · intro h
    exact validateVersions_fatal fs (readManifest_fatal fs h)
  · intro p hp hv o hr
    obtain ⟨pv, rd, rdd, instErrs, instLog, hm, hi, ho⟩ :=
      validateVersions_ok_inv fs o hr
    have hpv : pv = none := by
      unfold readManifest at hm
      rw [hp] at hm
      dsimp only at hm
      cases hd : p.devDependencies with
      | none =>
        rw [hd] at hm
        exact Except.noConfusion hm
      | some dd =>
        rw [hd] at hm
        dsimp only at hm
        cases hre : dd.react with
        | none =>
          rw [hre] at hm
          exact Except.noConfusion hm
        | some r =>
          cases hrdm : dd.reactDom with
          | none =>
            rw [hre, hrdm] at hm
            exact Except.noConfusion hm
          | some rr =>
            rw [hre, hrdm] at hm
            dsimp only at hm
            have h1 := congrArg (fun t => t.1) (Except.ok.inj hm)
            dsimp only at h1
            rw [hv] at h1
            exact h1.symm
    subst ho
    apply finalReport_exit_one
    have hrc : reactDepCheck rd pv = ([reactMsg rd pv], []) := by
      unfold reactDepCheck
      rw [if_pos]
      rw [hpv]
      exact fun hh => Option.noConfusion hh
    simp [hrc]

/-- Claim C7, counterexample: a run that fails does NOT print its accumulated
Warnings: on `fsMism` one error and one warning are collected, the exit
status is 1, and the warning appears nowhere in the printed transcript. -/
theorem failure_run_omits_warnings :
    validateVersions fsMism = Except.ok outMism ∧
    noDistMsg ∈ outMism.warnings ∧
    noDistMsg ∉ outMism.log ∧
    outMism.exit = 1 := by
  refine ⟨rfl, by decide, by decide, rfl⟩

/-- Claim C7, amended: on every non-fatal run the error and warning sequences
are exactly the concatenation of every check's independent contribution (so
no failing check suppresses a later check), every collected Error is printed,
and a failing run prints the scan lines, the separator, the failure header
and the Errors only — the Warnings are printed only when the run exits 0. -/
theorem report_printing_policy (fs : FS) (o : Outcome) (pv : Option String)
    (rd rdd : String) (instErrs instLog : List String)
    (hm : readManifest fs = Except.ok (pv, rd, rdd))
    (hi : installedCheck rd fs.installedReact = Except.ok (instErrs, instLog))
    (hr : validateVersions fs = Except.ok o) :
    o.errors = (reactDepCheck rd pv).1 ++ (reactDomDepCheck rdd pv).1
      ++ instErrs ++ (distScan pv fs.distContent).errs ∧
    o.warnings = (distScan pv fs.distContent).warns
      ++ (distPost (distScan pv fs.distContent)).1 ∧
    (∀ e ∈ o.errors, e ∈ o.log) ∧
    (o.exit = 1 → o.log = scanLog pv rd rdd instLog (distScan pv fs.distContent)
      ++ [sepLine, failHdr] ++ o.errors) ∧
    (o.exit = 0 → ∀ w ∈ o.warnings, w ∈ o.log) := by
  have hv := validateVersions_ok fs pv rd rdd instErrs instLog hm hi
  rw [hv] at hr
  have ho := Except.ok.inj hr
  subst ho
  obtain ⟨h1, h2, h3⟩ := finalReport_print
    (scanLog pv rd rdd instLog (distScan pv fs.distContent))
    ((reactDepCheck rd pv).1 ++ (reactDomDepCheck rdd pv).1 ++ instErrs
      ++ (distScan pv fs.distContent).errs)
    ((distScan pv fs.distContent).warns
      ++ (distPost (distScan pv fs.distContent)).1)
  refine ⟨finalReport_errors _ _ _, finalReport_warnings _ _ _, ?_, ?_, ?_⟩
  · intro e he
    rw [finalReport_errors] at he
    exact h1 e he
  · intro hx
    rw [finalReport_errors]
    exact h2 hx
  · intro hx w hw
    rw [finalReport_warnings] at hw
    exact h3 hx w hw

/-- Claim C8: constraint normalization strips one leading range operator, so
`^19.2.0`, `~19.2.0` and `19.2.0` all normalize to `19.2.0`. -/
theorem strip_range_op_examples :
    stripRangeOp ("^19.2.0") = "19.2.0" ∧
    stripRangeOp ("~19.2.0") = "19.2.0" ∧
    stripRangeOp ("19.2.0") = "19.2.0" :=
  ⟨rfl, rfl, rfl⟩

/-- Claim C9: the run is a deterministic function of the file contents: two
runs against identical file contents yield identical transcripts, error and
warning sequences, and exit status. -/
theorem run_deterministic (fs fs' : FS)
    (h1 : fs.packageJson = fs'.packageJson)
    (h2 : fs.installedReact = fs'.installedReact)
    (h3 : ∀ f, fs.distContent f = fs'.distContent f) :
    validateVersions fs = validateVersions fs' := by
  obtain ⟨a, b, c⟩ := fs
  obtain ⟨a', b', c'⟩ := fs'
  dsimp only at h1 h2 h3
  subst h1
  subst h2
  have hc : c = c' := funext h3
  subst hc
  rfl

/-- Claim C10: normalization removes at most one leading character, so the
two-character operator in `>=19.2.0` is only half-stripped, yielding
`=19.2.0`; against any declared version that starts with a digit this always
compares unequal and produces the mismatch error. -/
theorem strip_range_op_single_char :
    stripRangeOp (">=19.2.0") = "=19.2.0" ∧
    (∀ s : String, s.data.length ≤ (stripRangeOp s).data.length + 1) ∧
    (∀ (fs : FS) (o : Outcome) (p : Pkg) (dd : DevDeps) (v : String),
      fs.packageJson = some (JsonOr.parsed p) → p.devDependencies = some dd →
      dd.react = some (">=19.2.0") → p.version = some v →
      (v.data.headD ' ').isDigit = true →
      validateVersions fs = Except.ok o →
      reactMsg ("=19.2.0") (some v) ∈ o.errors ∧ o.exit = 1) := by
  refine ⟨rfl, ?_, ?_⟩
  · intro s
    unfold stripRangeOp
    cases hd : s.data with
    | nil => simp
    | cons c cs =>
      dsimp only
      split
      · simp [hd]
      · rw [hd]
        exact Nat.le_succ _
  · intro fs o p dd v hp hd hre hv hdig hr
    cases hrdm : dd.reactDom with
    | none =>
      have hfatal : manifestFatal fs = true := by
        unfold manifestFatal
        rw [hp]
        dsimp only
        rw [hd]
        dsimp only
        rw [hrdm]
        simp
      have hfat := validateVersions_fatal fs (readManifest_fatal fs hfatal)
      rw [hfat] at hr
      exact Except.noConfusion hr
    | some rdm =>
      have hm : readManifest fs =
          Except.ok (some v, "=19.2.0", stripRangeOp rdm) := by
        unfold readManifest
        rw [hp]
        dsimp only
        rw [hd]
        dsimp only
        rw [hre, hrdm]
        dsimp only
        rw [hv]
        rfl
      have hne : some ("=19.2.0") ≠ some v := by
        intro h
        have hveq : v = "=19.2.0" := (Option.some.inj h).symm
        rw [hveq] at hdig
        exact absurd hdig (by decide)
      exact react_mismatch_run fs o (some v) ("=19.2.0") (stripRangeOp rdm)
        hm hr hne

/-! Witnesses: each applies its claim theorem at a concrete input. -/

/-- Witness for C1 at `fsPass`. -/
theorem noDist_warning_iff_zero_extracted_witness :
    noDistMsg ∈ outPass.warnings ↔ extractedCount fsPass.distContent = 0 :=
  (noDist_warning_iff_zero_extracted fsPass outPass rfl).1

/-- Witness for C2 at `fsPass`. -/
theorem exit_status_iff_errors_witness :
    (outPass.exit = 0 ↔ outPass.errors = []) ∧
    (outPass.exit = 1 ↔ outPass.errors ≠ []) :=
  exit_status_iff_errors fsPass outPass rfl

/-- Witness for C3 at `fsMism`. -/
theorem dep_constraint_mismatch_error_witness :
    reactMsg ("19.1.0") (some ("19.2.0")) ∈ outMism.errors ∧
    outMism.exit = 1 :=
  (dep_constraint_mismatch_error fsMism outMism (some ("19.2.0")) ("19.1.0")
    ("19.2.0") rfl rfl).1 (by decide)

/-- Witness for C4 with an installed `19.1.0` against constraint `19.2.0`. -/
theorem installed_check_against_constraint_witness :
    installedCheck ("19.2.0") (some (JsonOr.parsed (some ("19.1.0")))) =
      Except.ok ([instMismatchMsg (some ("19.1.0")) ("19.2.0"), npmInstallHint],
        [instLogLine (some ("19.1.0"))]) ∧
    (instMismatchMsg (some ("19.1.0")) ("19.2.0") ∈ outInst.errors ∧
      npmInstallHint ∈ outInst.errors ∧ outInst.exit = 1) :=
  ⟨(installed_check_against_constraint ("19.2.0") (some ("19.1.0"))).2.1
      (by decide),
   (installed_check_against_constraint ("19.2.0") (some ("19.1.0"))).2.2.2
      fsInst outInst (some ("19.2.0")) ("19.2.0") rfl rfl rfl (by decide)⟩

/-- Witness for C5 at a mismatching artifact first line. -/
theorem artifact_first_line_check_witness :
    (checkDistFile (some ("19.1.0")) ("dist/react.development.js")
      (some ("/*! react.development.js v19.2.0 */"))).errs =
      [distMismatchMsg ("dist/react.development.js") ("19.2.0")
        (some ("19.1.0")), npmBuildHint] ∧
    (checkDistFile (some ("19.1.0")) ("dist/react.development.js")
      (some ("/*! react.development.js v19.2.0 */"))).warns = [] :=
  ((artifact_first_line_check (some ("19.1.0")) ("dist/react.development.js")
    ("/*! react.development.js v19.2.0 */")).2.1 ("19.2.0") rfl).1 (by decide)

/-- Witness for C6 at `fsJunk` and `fsNoVer`. -/
theorem manifest_fatal_and_missing_version_witness :
    validateVersions fsJunk = Except.error () ∧ outNoVer.exit = 1 :=
  ⟨(manifest_fatal_and_missing_version fsJunk).1 rfl,
   (manifest_fatal_and_missing_version fsNoVer).2
     ⟨none, some ⟨some ("1.0.0"), some ("1.0.0")⟩⟩ rfl rfl outNoVer rfl⟩

/-- Witness for C7 at `fsMism`: the failure transcript is the scan lines, the
separator, the failure header, then exactly the errors. -/
theorem report_printing_policy_witness :
    outMism.log = scanLog (some ("19.2.0")) ("19.1.0") ("19.2.0") []
      (distScan (some ("19.2.0")) fsMism.distContent) ++ [sepLine, failHdr]
      ++ outMism.errors :=
  (report_printing_policy fsMism outMism (some ("19.2.0")) ("19.1.0")
    ("19.2.0") [] [] rfl rfl rfl).2.2.2.1 rfl

/-- Witness for C9: two identical file sets give identical runs. -/
theorem run_deterministic_witness :
    validateVersions fsPass = validateVersions fsPass2 :=
  run_deterministic fsPass fsPass2 rfl rfl (fun _ => rfl)

/-- Witness for C10 at `fsTen`. -/
theorem strip_range_op_single_char_witness :
    reactMsg ("=19.2.0") (some ("19.2.0")) ∈ outTen.errors ∧
    outTen.exit = 1 :=
  strip_range_op_single_char.2.2 fsTen outTen
    ⟨some ("19.2.0"), some ⟨some (">=19.2.0"), some ("^19.2.0")⟩⟩
    ⟨some (">=19.2.0"), some ("^19.2.0")⟩ ("19.2.0") rfl rfl rfl rfl
    (by decide) rfl

end ValidateVersions
